import Mathlib

/-!
Shallow embedding of the Pasis go-sdk request-execution and
credential-lifecycle core (files `auth.go`, `cache.go`, `errors.go`,
`wallet.go`, `transactions.go` and the client/executor file holding
`doRequest`, `setTokens` and the retry constants).

Modelling conventions:
* Time is an integer count of milliseconds; Go's `time.Time` zero value is
  modelled as `0` and `IsZero` as equality with `0`.  `TokenRefreshBuffer`
  (5 minutes) is `300000` ms and `DefaultRetryBackoff` (100 ms) is `100`.
* HTTP exchanges are oracles: each call's outcome (transport failure, or a
  response with a status code, status text and the ways its body decodes)
  is an explicit input.  JSON decoding of an opaque body is likewise an
  input, since the body bytes are opaque to the model.
* The base URL is taken to be valid and request construction/marshalling of
  the fixed request structs to succeed, as they do for the default
  configuration; those early-return error paths are therefore not modelled.
* The code is sequential here: the lock-guarded reads and writes of the
  client's token triple become plain functional state passing, and
  `time.Now()` is a single `now` parameter per operation.
-/

namespace Pasis

/-- Time in milliseconds; Go `time.Time` zero value is `0`. -/
abbrev Time := Int

/-- Go `(time.Time).IsZero` under the integer-time model. -/
def isZeroTime (t : Time) : Bool := t = 0

/-- `TokenRefreshBuffer = 5 * time.Minute`, in milliseconds. -/
def tokenRefreshBuffer : Int := 300000

/-- `DefaultRetryBackoff = 100 * time.Millisecond`, in milliseconds. -/
def defaultRetryBackoff : Nat := 100

/-- `ErrorResponse` from the models file: `{message, errors}`. -/
structure ErrorResponse where
  message : String
  errs : List String
deriving Repr, DecidableEq

/-- `AppAuthResponse`: `{access_token, refresh_token, expires_in}`
(`expires_in` in seconds). -/
structure AppAuthResponse where
  accessToken : String
  refreshToken : String
  expiresIn : Int
deriving Repr, DecidableEq

/-- The error values the SDK can return, by construction site:
`apiError`, `authError`, `validationError` are the structs of `errors.go`
(each wrapping struct keeps its `Err` field as `wrapped`); `transportErr`
stands for an error returned by `httpClient.Do`; `decodeErr` for a
`fmt.Errorf` produced at a JSON-decode failure; `wrapErr` for
`fmt.Errorf("...: %w", inner)`; `ctxCanceled` for `ctx.Err()`;
`invalidInput` for the plain `fmt.Errorf` argument checks in the endpoint
wrappers. -/
inductive SdkError where
  | apiError (statusCode : Nat) (message : String) (errs : List String)
  | authError (message : String) (wrapped : Option SdkError)
  | validationError (message : String) (wrapped : Option SdkError)
  | transportErr
  | decodeErr (message : String)
  | wrapErr (ctxMsg : String) (inner : SdkError)
  | ctxCanceled
  | invalidInput (message : String)
deriving Repr

/-- Whether an error is an authentication-class error (`*AuthError`). -/
def SdkError.isAuthClass : SdkError → Bool
  | .authError _ _ => true
  | _ => false

/-- `parseErrorResponse` from `errors.go`.  `decoded` is how the response
body decodes as an `ErrorResponse` (`none` = decode failure). -/
def parseErrorResponse (statusCode : Nat) (statusText : String)
    (decoded : Option ErrorResponse) : SdkError :=
  match decoded with
  | none =>
      .apiError statusCode
        ("HTTP " ++ toString statusCode ++ ": " ++ statusText) []
  | some errResp =>
      let apiErr := SdkError.apiError statusCode errResp.message errResp.errs
      if statusCode = 401 then
        .authError errResp.message (some apiErr)
      else if statusCode = 400 ∨ statusCode = 422 then
        .validationError errResp.message (some apiErr)
      else
        apiErr

/-- The client's lock-guarded token triple
(`accessToken`, `refreshToken`, `tokenExpiresAt`). -/
structure TokenState where
  accessToken : String
  refreshToken : String
  tokenExpiresAt : Time
deriving Repr, DecidableEq

/-- The token cache's stored triple (the write-through target of
`setTokens`; `InMemoryTokenCache` in `cache.go`). -/
structure CacheState where
  token : String
  refreshToken : String
  expiresAt : Time
deriving Repr, DecidableEq

/-- The `Client` fields the core mutates or reads:
the token triple, the cache contents last written, and `retryCount`. -/
structure Client where
  state : TokenState
  cache : CacheState
  retryCount : Nat
deriving Repr, DecidableEq

/-- `setTokens` from the client file: write the triple under the lock,
then mirror it into the token cache (`tokenCache.Set`). -/
def setTokens (c : Client) (tok rtok : String) (expiresAt : Time) : Client :=
  { c with
    state := ⟨tok, rtok, expiresAt⟩
    cache := ⟨tok, rtok, expiresAt⟩ }

/-- Result of `tokenCache.Get()`: the triple and whether the call
errored.  Pluggable backends may return anything, so this is an oracle
input rather than a read of `Client.cache`. -/
structure GetResult where
  token : String
  refreshToken : String
  expiresAt : Time
  failed : Bool
deriving Repr, DecidableEq

/-- How the body of an auth/refresh exchange response decodes:
`errDecoded` is its reading as an `ErrorResponse`;
`envDecoded` its reading as a `SuccessResponse` whose `Data` is then
re-marshalled and unmarshalled into `AppAuthResponse`
(`none` = envelope decode failure, `some none` = the data does not
unmarshal as `AppAuthResponse`, `some (some a)` = success). -/
structure AuthBody where
  errDecoded : Option ErrorResponse
  envDecoded : Option (Option AppAuthResponse)
deriving Repr, DecidableEq

/-- Outcome of one `httpClient.Do` call with body decode oracle `β`. -/
inductive HTTPResult (β : Type) where
  | transportFail
  | resp (status : Nat) (statusText : String) (body : β)
deriving Repr, DecidableEq

/-- Result of one credential exchange: the updated client, the error
returned, and the number of HTTP calls issued (0 or 1). -/
structure ExchangeResult where
  client : Client
  err : Option SdkError
  calls : Nat
deriving Repr

/-- `authenticate` from `auth.go`: POST `{base}/auth/app`; a `Do` failure
is wrapped in `AuthError`; a status outside `[200,400)` goes through
`parseErrorResponse`; decode failures return plain `fmt.Errorf` errors;
on success `expiresAt := now + expiresIn seconds` and `setTokens`. -/
def authenticate (c : Client) (now : Time) (h : HTTPResult AuthBody) :
    ExchangeResult :=
  match h with
  | .transportFail =>
      ⟨c, some (.authError "failed to authenticate" (some .transportErr)), 1⟩
  | .resp status text body =>
      if status < 200 ∨ 400 ≤ status then
        ⟨c, some (parseErrorResponse status text body.errDecoded), 1⟩
      else
        match body.envDecoded with
        | none => ⟨c, some (.decodeErr "failed to decode response"), 1⟩
        | some none =>
            ⟨c, some (.decodeErr "failed to unmarshal auth response"), 1⟩
        | some (some auth) =>
            let expiresAt := now + auth.expiresIn * 1000
            ⟨setTokens c auth.accessToken auth.refreshToken expiresAt,
              none, 1⟩

/-- `refreshAccessToken` from `auth.go`: fail with `AuthError` and no
network call when no refresh token is held; otherwise POST
`{base}/auth/refresh` and handle the outcome exactly as `authenticate`
does (transport failure wrapped in `AuthError` with message
"failed to refresh token"). -/
def refreshAccessToken (c : Client) (now : Time) (h : HTTPResult AuthBody) :
    ExchangeResult :=
  if c.state.refreshToken = "" then
    ⟨c, some (.authError "no refresh token available" none), 0⟩
  else
    match h with
    | .transportFail =>
        ⟨c, some (.authError "failed to refresh token" (some .transportErr)), 1⟩
    | .resp status text body =>
        if status < 200 ∨ 400 ≤ status then
          ⟨c, some (parseErrorResponse status text body.errDecoded), 1⟩
        else
          match body.envDecoded with
          | none => ⟨c, some (.decodeErr "failed to decode response"), 1⟩
          | some none =>
              ⟨c, some (.decodeErr "failed to unmarshal auth response"), 1⟩
          | some (some auth) =>
              let expiresAt := now + auth.expiresIn * 1000
              ⟨setTokens c auth.accessToken auth.refreshToken expiresAt,
                none, 1⟩

/-- Step 1 of `ensureToken`: read the cache; when `Get` succeeded and the
cached access token is non-empty, adopt the cached triple as current and
use its expiry; otherwise keep the in-process expiry.  Returns the
(possibly updated) client and the adopted expiry. -/
def adoptCache (c : Client) (g : GetResult) : Client × Time :=
  if ¬ g.failed ∧ g.token ≠ "" then
    ({ c with state := ⟨g.token, g.refreshToken, g.expiresAt⟩ }, g.expiresAt)
  else
    (c, c.state.tokenExpiresAt)

/-- Oracle inputs of one `ensureToken` call: the cache read, the current
time and the outcomes of the (at most one) refresh and (at most one)
authentication exchanges it may issue. -/
structure EnsureWorld where
  cacheGet : GetResult
  now : Time
  refreshHTTP : HTTPResult AuthBody
  authHTTP : HTTPResult AuthBody

/-- Result of `ensureToken`: updated client, returned error, and the
total number of HTTP exchanges issued. -/
structure EnsureResult where
  client : Client
  err : Option SdkError
  netCalls : Nat
deriving Repr

/-- `ensureToken` from `auth.go`: adopt the cached triple when present;
the token is stale when the adopted expiry is zero or
`now + TokenRefreshBuffer` is after it; when stale, refresh if a refresh
token is held, falling back to `authenticate` if the refresh errs;
when stale with no refresh token, authenticate; when fresh, do nothing. -/
def ensureToken (c : Client) (w : EnsureWorld) : EnsureResult :=
  let a := adoptCache c w.cacheGet
  let c1 := a.1
  let expiresAt := a.2
  if isZeroTime expiresAt ∨ w.now + tokenRefreshBuffer > expiresAt then
    if c1.state.refreshToken ≠ "" then
      let r := refreshAccessToken c1 w.now w.refreshHTTP
      match r.err with
      | none => ⟨r.client, none, r.calls⟩
      | some _ =>
          let a2 := authenticate r.client w.now w.authHTTP
          ⟨a2.client, a2.err, r.calls + a2.calls⟩
    else
      let a2 := authenticate c1 w.now w.authHTTP
      ⟨a2.client, a2.err, a2.calls⟩
  else
    ⟨c1, none, 0⟩

/-- The caller's result sink, abstractly: the value a successful data
unmarshal would write into it. -/
abbrev SinkVal := String

/-- How the body of a 2xx/3xx operation response decodes when a result
sink was supplied: the `SuccessResponse` envelope decode may fail
(`envFail`), decode with `Data == nil` (`dataNull`), or decode with
non-nil `Data` whose re-marshal/unmarshal into the sink fails
(`dataFail`) or writes `v` (`dataOk v`). -/
inductive SuccessDecode where
  | envFail
  | dataNull
  | dataFail
  | dataOk (v : SinkVal)
deriving Repr, DecidableEq

/-- Outcome of one dispatch (`httpClient.Do`) inside `doRequest`'s retry
loop: a transport failure, or a response with its status, status text,
and the two body-decode oracles. -/
inductive Dispatch where
  | transportFail
  | resp (status : Nat) (statusText : String)
      (errDecoded : Option ErrorResponse) (success : SuccessDecode)
deriving Repr, DecidableEq

/-- Oracle inputs of one `doRequest` call: the `ensureToken` world, the
outcome of the dispatch of each attempt (0-based), and whether the
caller's context is already cancelled when the backoff wait before a
given attempt starts (relevant for attempts ≥ 1 only). -/
structure ReqWorld where
  ensure : EnsureWorld
  dispatch : Nat → Dispatch
  canceled : Nat → Bool

/-- Result of `doRequest`: the client, the returned error, the number of
dispatches performed, the backoff waits slept (in order, ms), the final
sink value, and the HTTP calls `ensureToken` issued. -/
structure ReqResult where
  client : Client
  err : Option SdkError
  attempts : Nat
  sleeps : List Nat
  sink : SinkVal
  ensureCalls : Nat
deriving Repr

/-- The retry loop of `doRequest`
(`for attempt := 0; attempt <= maxRetries; attempt++`), with
`remaining = maxRetries - attempt` driving the `attempt < maxRetries`
retry checks.  `attempt` also counts the dispatches performed so far.
On attempts after the first, returning `ctx.Err()` if the context is
cancelled, otherwise sleeping `backoff` and doubling it; then dispatch:
a transport failure or a status ≥ 500 records the (classified) error and
retries while attempts remain; other statuses outside `[200,400)` return
their classified error at once; otherwise decode into the sink if a sink
was supplied. -/
def doLoop (w : ReqWorld) (hasResult : Bool) (sink0 : SinkVal) (c : Client) :
    Nat → Nat → Nat → Option SdkError → List Nat → ReqResult
  | remaining, attempt, backoff, _lastErr, sleeps =>
    if attempt ≠ 0 ∧ w.canceled attempt then
      ⟨c, some .ctxCanceled, attempt, sleeps, sink0, 0⟩
    else
      let sleeps1 := if attempt ≠ 0 then sleeps ++ [backoff] else sleeps
      let backoff1 := if attempt ≠ 0 then backoff * 2 else backoff
      match w.dispatch attempt with
      | .transportFail =>
          let e := SdkError.wrapErr "request failed" .transportErr
          match remaining with
          | r + 1 =>
              doLoop w hasResult sink0 c r (attempt + 1) backoff1 (some e)
                sleeps1
          | 0 => ⟨c, some e, attempt + 1, sleeps1, sink0, 0⟩
      | .resp status text errDec succ =>
          if 500 ≤ status then
            let e := parseErrorResponse status text errDec
            match remaining with
            | r + 1 =>
                doLoop w hasResult sink0 c r (attempt + 1) backoff1 (some e)
                  sleeps1
            | 0 => ⟨c, some e, attempt + 1, sleeps1, sink0, 0⟩
          else if status < 200 ∨ 400 ≤ status then
            ⟨c, some (parseErrorResponse status text errDec), attempt + 1,
              sleeps1, sink0, 0⟩
          else if hasResult then
            match succ with
            | .envFail =>
                ⟨c, some (.decodeErr "failed to decode response"),
                  attempt + 1, sleeps1, sink0, 0⟩
            | .dataNull => ⟨c, none, attempt + 1, sleeps1, sink0, 0⟩
            | .dataFail =>
                ⟨c, some (.decodeErr "failed to unmarshal response data"),
                  attempt + 1, sleeps1, sink0, 0⟩
            | .dataOk v => ⟨c, none, attempt + 1, sleeps1, v, 0⟩
          else
            ⟨c, none, attempt + 1, sleeps1, sink0, 0⟩

/-- `doRequest` from the client file: `ensureToken` first, propagating
its failure wrapped with "failed to ensure token" and performing no
attempt; otherwise run the retry loop with
`maxRetries = max(retryCount, 0)` starting at attempt 0 with the initial
backoff. -/
def doRequest (c : Client) (w : ReqWorld) (hasResult : Bool)
    (sink0 : SinkVal) : ReqResult :=
  let er := ensureToken c w.ensure
  match er.err with
  | some e =>
      ⟨er.client, some (.wrapErr "failed to ensure token" e), 0, [], sink0,
        er.netCalls⟩
  | none =>
      let maxRetries := Nat.max c.retryCount 0
      let r := doLoop w hasResult sink0 er.client maxRetries 0
        defaultRetryBackoff none []
      { r with ensureCalls := er.netCalls }

/-- `DepositRequest` from the models file (metadata elided as opaque). -/
structure DepositRequest where
  amount : String
  currency : String
  provider : String
  region : String
  phoneNumber : String
deriving Repr, DecidableEq

/-- `WithdrawRequest` from the models file (metadata elided as opaque). -/
structure WithdrawRequest where
  amount : String
  currency : String
  provider : String
  region : String
  phoneNumber : String
deriving Repr, DecidableEq

/-- Result of a typed endpoint wrapper call, tracking whether
`ensureToken` was ever invoked and how many dispatches / HTTP exchanges
occurred. -/
structure EndpointResult where
  err : Option SdkError
  ensureInvoked : Bool
  attempts : Nat
  netCalls : Nat
  client : Client
deriving Repr

/-- `Deposit` from `wallet.go`: a nil request errs at once, before any
`doRequest`; otherwise POST `/wallet/deposit` through `doRequest`,
wrapping a failure with "failed to deposit".  (The success-path cast of
the decoded data into `WalletTransaction` is elided: the sink is
opaque here.) -/
def Deposit (c : Client) (w : ReqWorld) (req : Option DepositRequest) :
    EndpointResult :=
  match req with
  | none => ⟨some (.invalidInput "deposit request cannot be nil"),
      false, 0, 0, c⟩
  | some _ =>
      let r := doRequest c w true ""
      ⟨r.err.map (.wrapErr "failed to deposit"), true, r.attempts,
        r.ensureCalls, r.client⟩

/-- `Withdraw` from `wallet.go`: a nil request errs at once, before any
`doRequest`; otherwise POST `/wallet/withdraw` through `doRequest`,
wrapping a failure with "failed to withdraw". -/
def Withdraw (c : Client) (w : ReqWorld) (req : Option WithdrawRequest) :
    EndpointResult :=
  match req with
  | none => ⟨some (.invalidInput "withdraw request cannot be nil"),
      false, 0, 0, c⟩
  | some _ =>
      let r := doRequest c w true ""
      ⟨r.err.map (.wrapErr "failed to withdraw"), true, r.attempts,
        r.ensureCalls, r.client⟩

/-- `GetTransaction` from `transactions.go`: an empty id errs at once,
before any `doRequest`; otherwise GET `/wallet/transactions/<id>`
through `doRequest`, wrapping a failure with
"failed to get transaction". -/
def GetTransaction (c : Client) (w : ReqWorld) (id : String) :
    EndpointResult :=
  if id = "" then
    ⟨some (.invalidInput "transaction ID cannot be empty"), false, 0, 0, c⟩
  else
    let r := doRequest c w true ""
    ⟨r.err.map (.wrapErr "failed to get transaction"), true, r.attempts,
      r.ensureCalls, r.client⟩

/-! ## Concrete fixtures used by witnesses and counterexamples -/

/-- A default-configuration client with no tokens held
(`NewClient` with `DefaultRetryCount = 3` and empty token state). -/
def client0 : Client := ⟨⟨"", "", 0⟩, ⟨"", "", 0⟩, 3⟩

/-- An `ensureToken` world whose cache read yields a fresh token
(expiry far beyond `now + TokenRefreshBuffer`), so no exchange runs. -/
def freshEnsure : EnsureWorld :=
  ⟨⟨"tok", "rt", 1000000000, false⟩, 0, .transportFail, .transportFail⟩

/-- A request world whose every dispatch answers 500 with an
undecodable body, under a fresh token. -/
def w500 : ReqWorld :=
  ⟨freshEnsure, fun _ => .resp 500 "500 Internal Server Error" none .envFail,
    fun _ => false⟩

/-- A request world whose first dispatch answers 404, under a fresh
token. -/
def w404 : ReqWorld :=
  ⟨freshEnsure,
    fun _ => .resp 404 "404 Not Found" (some ⟨"not found", []⟩) .envFail,
    fun _ => false⟩

/-- A request world answering 500 on every dispatch whose context is
cancelled when the wait before attempt 2 starts. -/
def wCancel : ReqWorld :=
  ⟨freshEnsure, fun _ => .resp 500 "500 Internal Server Error" none .envFail,
    fun n => n = 2⟩

/-- A request world whose first dispatch answers 200 with a decodable
envelope carrying a nil `data` field. -/
def wNull : ReqWorld :=
  ⟨freshEnsure, fun _ => .resp 200 "200 OK" none .dataNull, fun _ => false⟩

/-- An `ensureToken` world with a stale cached token whose refresh
exchange fails at transport level and whose authentication exchange
succeeds. -/
def staleEnsure : EnsureWorld :=
  ⟨⟨"tok", "rt", 100, false⟩, 0, .transportFail,
    .resp 200 "200 OK" ⟨none, some (some ⟨"na", "nr", 3600⟩)⟩⟩

/-! ## Helper lemmas -/

/-- The backoff waits slept by `n` consecutive waiting attempts whose
first wait is `b`: each wait doubles the previous one. -/
def geomSleeps (b : Nat) : Nat → List Nat
  | 0 => []
  | n + 1 => b :: geomSleeps (b * 2) n

theorem geomSleeps_eq_map (b n : Nat) :
    geomSleeps b n = (List.range n).map (fun i => b * 2 ^ i) := by
  induction n generalizing b with
  | zero => simp [geomSleeps]
  | succ n ih =>
      rw [geomSleeps, ih, List.range_succ_eq_map]
      simp only [List.map_cons, List.map_map, pow_zero, mul_one]
      congr 1
      apply List.map_congr_left
      intro i _
      simp only [Function.comp_apply, Nat.pow_succ]
      ring

/-- The Error Classifier never produces a cancellation error. -/
theorem parseErrorResponse_ne_ctxCanceled
    (statusCode : Nat) (statusText : String)
    (decoded : Option ErrorResponse) :
    parseErrorResponse statusCode statusText decoded ≠ .ctxCanceled := by
  unfold parseErrorResponse
  cases decoded with
  | none => simp
  | some errResp =>
      simp only
      split
      · simp
      · split <;> simp

/-- A failed refresh leaves the client's state untouched
(`refreshAccessToken` only writes via `setTokens` on success). -/
theorem refreshAccessToken_fail_client (c : Client) (now : Time)
    (h : HTTPResult AuthBody)
    (hfail : (refreshAccessToken c now h).err.isSome) :
    (refreshAccessToken c now h).client = c := by
  by_cases he : c.state.refreshToken = ""
  · simp [refreshAccessToken, he]
  · cases h with
    | transportFail => simp [refreshAccessToken, he]
    | resp status text body =>
        by_cases hs : status < 200 ∨ 400 ≤ status
        · simp [refreshAccessToken, he, hs]
        · match hb : body.envDecoded with
          | none => simp [refreshAccessToken, he, hs, hb]
          | some none => simp [refreshAccessToken, he, hs, hb]
          | some (some auth) =>
              exfalso
              simp [refreshAccessToken, he, hs, hb] at hfail

/-- Unfolding: the first attempt (attempt 0) against a 5xx response with
retries remaining records the classified error and continues without
sleeping or doubling. -/
theorem doLoop_first_5xx (w : ReqWorld) (hR : Bool) (s0 : SinkVal)
    (c : Client) (r backoff : Nat) (lastErr : Option SdkError)
    (sleeps : List Nat) (s : Nat) (t : String) (ed : Option ErrorResponse)
    (su : SuccessDecode) (hd : w.dispatch 0 = .resp s t ed su)
    (h5 : 500 ≤ s) :
    doLoop w hR s0 c (r + 1) 0 backoff lastErr sleeps
      = doLoop w hR s0 c r 1 backoff (some (parseErrorResponse s t ed))
          sleeps := by
  conv_lhs => rw [doLoop]
  simp [hd, h5]

/-- Unfolding: the first attempt against a 5xx response with no retries
remaining returns its classified error at once. -/
theorem doLoop_first_5xx_exhausted (w : ReqWorld) (hR : Bool)
    (s0 : SinkVal) (c : Client) (backoff : Nat) (lastErr : Option SdkError)
    (sleeps : List Nat) (s : Nat) (t : String) (ed : Option ErrorResponse)
    (su : SuccessDecode) (hd : w.dispatch 0 = .resp s t ed su)
    (h5 : 500 ≤ s) :
    doLoop w hR s0 c 0 0 backoff lastErr sleeps
      = ⟨c, some (parseErrorResponse s t ed), 1, sleeps, s0, 0⟩ := by
  conv_lhs => rw [doLoop]
  simp [hd, h5]

/-- Unfolding: a later attempt (index ≥ 1) whose wait completes and whose
dispatch answers 5xx, with retries remaining: sleep `backoff`, double it,
record the classified error, continue. -/
theorem doLoop_later_5xx (w : ReqWorld) (hR : Bool) (s0 : SinkVal)
    (c : Client) (r attempt backoff : Nat) (lastErr : Option SdkError)
    (sleeps : List Nat) (s : Nat) (t : String) (ed : Option ErrorResponse)
    (su : SuccessDecode) (ha : attempt ≠ 0)
    (hc : w.canceled attempt = false)
    (hd : w.dispatch attempt = .resp s t ed su) (h5 : 500 ≤ s) :
    doLoop w hR s0 c (r + 1) attempt backoff lastErr sleeps
      = doLoop w hR s0 c r (attempt + 1) (backoff * 2)
          (some (parseErrorResponse s t ed)) (sleeps ++ [backoff]) := by
  conv_lhs => rw [doLoop]
  simp [ha, hc, hd, h5]

/-- Unfolding: a later attempt answering 5xx with no retries remaining
sleeps once more and returns the classified error. -/
theorem doLoop_later_5xx_exhausted (w : ReqWorld) (hR : Bool)
    (s0 : SinkVal) (c : Client) (attempt backoff : Nat)
    (lastErr : Option SdkError) (sleeps : List Nat) (s : Nat) (t : String)
    (ed : Option ErrorResponse) (su : SuccessDecode) (ha : attempt ≠ 0)
    (hc : w.canceled attempt = false)
    (hd : w.dispatch attempt = .resp s t ed su) (h5 : 500 ≤ s) :
    doLoop w hR s0 c 0 attempt backoff lastErr sleeps
      = ⟨c, some (parseErrorResponse s t ed), attempt + 1,
          sleeps ++ [backoff], s0, 0⟩ := by
  conv_lhs => rw [doLoop]
  simp [ha, hc, hd, h5]

/-- Unfolding: a later attempt whose context is cancelled when its wait
starts returns `ctx.Err()` with no further dispatch. -/
theorem doLoop_canceled (w : ReqWorld) (hR : Bool) (s0 : SinkVal)
    (c : Client) (remaining attempt backoff : Nat)
    (lastErr : Option SdkError) (sleeps : List Nat) (ha : attempt ≠ 0)
    (hc : w.canceled attempt = true) :
    doLoop w hR s0 c remaining attempt backoff lastErr sleeps
      = ⟨c, some .ctxCanceled, attempt, sleeps, s0, 0⟩ := by
  conv_lhs => rw [doLoop]
  simp [ha, hc]

/-- Main loop lemma for uniformly-5xx worlds, for attempts ≥ 1: the loop
performs every remaining attempt, sleeps a doubling wait before each,
and ends with the classified error of the last response. -/
theorem doLoop_all_5xx (w : ReqWorld) (hR : Bool) (s0 : SinkVal)
    (c : Client) (s : Nat → Nat) (t : Nat → String)
    (ed : Nat → Option ErrorResponse) (su : Nat → SuccessDecode)
    (hd : ∀ n, w.dispatch n = .resp (s n) (t n) (ed n) (su n))
    (h5 : ∀ n, 500 ≤ s n) (hc : ∀ n, w.canceled n = false) :
    ∀ remaining attempt backoff lastErr sleeps, attempt ≠ 0 →
      doLoop w hR s0 c remaining attempt backoff lastErr sleeps
        = ⟨c, some (parseErrorResponse (s (attempt + remaining))
              (t (attempt + remaining)) (ed (attempt + remaining))),
            attempt + remaining + 1,
            sleeps ++ geomSleeps backoff (remaining + 1), s0, 0⟩ := by
  intro remaining
  induction remaining with
  | zero =>
      intro attempt backoff lastErr sleeps ha
      rw [doLoop_later_5xx_exhausted w hR s0 c attempt backoff lastErr
        sleeps _ _ _ _ ha (hc attempt) (hd attempt) (h5 attempt)]
      simp [geomSleeps]
  | succ r ih =>
      intro attempt backoff lastErr sleeps ha
      rw [doLoop_later_5xx w hR s0 c r attempt backoff lastErr sleeps
        _ _ _ _ ha (hc attempt) (hd attempt) (h5 attempt)]
      rw [ih (attempt + 1) (backoff * 2) _ (sleeps ++ [backoff])
        (Nat.succ_ne_zero attempt)]
      simp only [geomSleeps, List.append_assoc, List.singleton_append]
      have hidx : attempt + 1 + r = attempt + (r + 1) := by omega
      rw [hidx]

/-- Main loop lemma for a 5xx prefix followed by a cancellation at the
wait before attempt `attempt + m`: the loop returns the cancellation
error having dispatched exactly `attempt + m` times. -/
theorem doLoop_5xx_then_cancel (w : ReqWorld) (hR : Bool) (s0 : SinkVal)
    (c : Client) (s : Nat → Nat) (t : Nat → String)
    (ed : Nat → Option ErrorResponse) (su : Nat → SuccessDecode)
    (hd : ∀ n, w.dispatch n = .resp (s n) (t n) (ed n) (su n))
    (h5 : ∀ n, 500 ≤ s n) :
    ∀ m remaining attempt backoff lastErr sleeps, attempt ≠ 0 →
      m ≤ remaining →
      (∀ j, j < m → w.canceled (attempt + j) = false) →
      w.canceled (attempt + m) = true →
      (doLoop w hR s0 c remaining attempt backoff lastErr sleeps).err
          = some .ctxCanceled
        ∧ (doLoop w hR s0 c remaining attempt backoff lastErr
            sleeps).attempts = attempt + m := by
  intro m
  induction m with
  | zero =>
      intro remaining attempt backoff lastErr sleeps ha _ _ hck
      rw [doLoop_canceled w hR s0 c remaining attempt backoff lastErr
        sleeps ha (by simpa using hck)]
      simp
  | succ m ih =>
      intro remaining attempt backoff lastErr sleeps ha hmr hcpre hck
      obtain ⟨r, rfl⟩ : ∃ r, remaining = r + 1 :=
        ⟨remaining - 1, by omega⟩
      rw [doLoop_later_5xx w hR s0 c r attempt backoff lastErr sleeps
        _ _ _ _ ha (by simpa using hcpre 0 (Nat.succ_pos m))
        (hd attempt) (h5 attempt)]
      have h := ih r (attempt + 1) (backoff * 2)
        (some (parseErrorResponse (s attempt) (t attempt) (ed attempt)))
        (sleeps ++ [backoff]) (Nat.succ_ne_zero attempt) (by omega)
        (fun j hj => by
          have := hcpre (j + 1) (by omega)
          simpa [Nat.add_assoc, Nat.add_comm 1 j] using this)
        (by
          have : attempt + 1 + m = attempt + (m + 1) := by omega
          rw [this]; exact hck)
      exact ⟨h.1, by rw [h.2]; omega⟩

/-- Unfolding: the first attempt against a non-5xx status outside
`[200,400)` returns its classified error at once, with retries
remaining or not. -/
theorem doLoop_first_4xx (w : ReqWorld) (hR : Bool) (s0 : SinkVal)
    (c : Client) (remaining backoff : Nat) (lastErr : Option SdkError)
    (sleeps : List Nat) (status : Nat) (text : String)
    (ed : Option ErrorResponse) (su : SuccessDecode)
    (hd : w.dispatch 0 = .resp status text ed su)
    (h5 : ¬ 500 ≤ status) (h4 : status < 200 ∨ 400 ≤ status) :
    doLoop w hR s0 c remaining 0 backoff lastErr sleeps
      = ⟨c, some (parseErrorResponse status text ed), 1, sleeps, s0, 0⟩ := by
  conv_lhs => rw [doLoop]
  simp [hd, h5, h4]

/-- Unfolding: the first attempt against a success status whose envelope
decodes with nil `Data`, with a result sink supplied, returns success
without touching the sink. -/
theorem doLoop_first_dataNull (w : ReqWorld) (s0 : SinkVal) (c : Client)
    (remaining backoff : Nat) (lastErr : Option SdkError)
    (sleeps : List Nat) (status : Nat) (text : String)
    (ed : Option ErrorResponse)
    (hd : w.dispatch 0 = .resp status text ed .dataNull)
    (h5 : ¬ 500 ≤ status) (h4 : ¬ (status < 200 ∨ 400 ≤ status)) :
    doLoop w true s0 c remaining 0 backoff lastErr sleeps
      = ⟨c, none, 1, sleeps, s0, 0⟩ := by
  conv_lhs => rw [doLoop]
  simp [hd, h5, h4]

/-! ## Claims -/

/-- C1: whenever the expiry adopted from the token cache (or the
in-process expiry when the cache holds no token) is non-zero and more
than the 5-minute refresh buffer after the current time, `ensureToken`
issues no network call — neither a refresh nor an authentication
exchange — and returns success. -/
theorem C1_ensureToken_fresh_no_network (c : Client) (w : EnsureWorld)
    (hnz : (adoptCache c w.cacheGet).2 ≠ 0)
    (hfresh : w.now + tokenRefreshBuffer < (adoptCache c w.cacheGet).2) :
    (ensureToken c w).netCalls = 0 ∧ (ensureToken c w).err = none := by
  have h1 : isZeroTime (adoptCache c w.cacheGet).2 = false := by
    simp [isZeroTime, hnz]
  have h2 : ¬ (w.now + tokenRefreshBuffer > (adoptCache c w.cacheGet).2) :=
    not_lt.mpr (le_of_lt hfresh)
  simp [ensureToken, h1, h2]

/-- Witness for C1 at a concrete fresh-cache world. -/
theorem C1_witness :
    (ensureToken client0 freshEnsure).netCalls = 0
      ∧ (ensureToken client0 freshEnsure).err = none :=
  C1_ensureToken_fresh_no_network client0 freshEnsure (by decide) (by decide)

/-- C2: when the token is stale and a refresh token is present, a
failing refresh exchange makes `ensureToken` fall back to a full
authentication and return its result; in particular `ensureToken`
succeeds whenever that authentication succeeds, and the refresh failure
is never propagated directly. -/
theorem C2_refresh_failure_falls_back (c : Client) (w : EnsureWorld)
    (hstale : isZeroTime (adoptCache c w.cacheGet).2 = true
      ∨ w.now + tokenRefreshBuffer > (adoptCache c w.cacheGet).2)
    (hrt : (adoptCache c w.cacheGet).1.state.refreshToken ≠ "")
    (hrf : (refreshAccessToken (adoptCache c w.cacheGet).1 w.now
        w.refreshHTTP).err.isSome = true) :
    (ensureToken c w).err
        = (authenticate (adoptCache c w.cacheGet).1 w.now w.authHTTP).err
      ∧ ((authenticate (adoptCache c w.cacheGet).1 w.now w.authHTTP).err
            = none
          → (ensureToken c w).err = none) := by
  have hcl := refreshAccessToken_fail_client (adoptCache c w.cacheGet).1
    w.now w.refreshHTTP hrf
  obtain ⟨e, he⟩ := Option.isSome_iff_exists.mp hrf
  have hmain : (ensureToken c w).err
      = (authenticate (adoptCache c w.cacheGet).1 w.now w.authHTTP).err := by
    simp only [ensureToken]
    rw [if_pos hstale, if_pos hrt, he]
    rw [hcl]
  exact ⟨hmain, fun h => hmain.trans h⟩

/-- Witness for C2 at a concrete stale world whose refresh exchange
fails at transport level and whose authentication succeeds. -/
theorem C2_witness :
    (ensureToken client0 staleEnsure).err
        = (authenticate (adoptCache client0 staleEnsure.cacheGet).1
            staleEnsure.now staleEnsure.authHTTP).err
      ∧ ((authenticate (adoptCache client0 staleEnsure.cacheGet).1
            staleEnsure.now staleEnsure.authHTTP).err = none
          → (ensureToken client0 staleEnsure).err = none) :=
  C2_refresh_failure_falls_back client0 staleEnsure
    (Or.inr (by decide)) (by decide) (by rfl)

/-- C5: for a non-2xx response, `parseErrorResponse` returns a generic
`APIError` with the synthesized "HTTP <code>: <status text>" message
when the body does not decode as an Error Envelope; otherwise an
`AuthError` wrapping the `APIError` for status 401, a `ValidationError`
wrapping it for status 400 or 422, and the plain `APIError` carrying the
envelope's message and sub-error list verbatim for every other
status. -/
theorem C5_parseErrorResponse_classification
    (statusCode : Nat) (statusText : String) :
    (parseErrorResponse statusCode statusText none
        = .apiError statusCode
            ("HTTP " ++ toString statusCode ++ ": " ++ statusText) [])
    ∧ ∀ er : ErrorResponse,
        (statusCode = 401 →
          parseErrorResponse statusCode statusText (some er)
            = .authError er.message
                (some (.apiError statusCode er.message er.errs)))
        ∧ (statusCode = 400 ∨ statusCode = 422 →
          parseErrorResponse statusCode statusText (some er)
            = .validationError er.message
                (some (.apiError statusCode er.message er.errs)))
        ∧ (statusCode ≠ 400 → statusCode ≠ 401 → statusCode ≠ 422 →
          parseErrorResponse statusCode statusText (some er)
            = .apiError statusCode er.message er.errs) := by
  refine ⟨rfl, fun er => ⟨?_, ?_, ?_⟩⟩
  · intro h
    subst h
    simp [parseErrorResponse]
  · rintro (h | h) <;> subst h <;> simp [parseErrorResponse]
  · intro h400 h401 h422
    simp [parseErrorResponse, h400, h401, h422]

/-- Witness for C5 at status 401 with a decodable envelope. -/
theorem C5_witness :
    parseErrorResponse 401 "401 Unauthorized" (some ⟨"nope", []⟩)
      = .authError "nope" (some (.apiError 401 "nope" [])) :=
  ((C5_parseErrorResponse_classification 401 "401 Unauthorized").2
    ⟨"nope", []⟩).1 rfl

/-- C10: `Deposit` and `Withdraw` called with a nil request, and
`GetTransaction` called with an empty id, each return a non-nil error
immediately, before `ensureToken` is invoked, without issuing any HTTP
exchange and leaving the client's token state unchanged. -/
theorem C10_input_validation_short_circuits (c : Client) (w : ReqWorld) :
    ((Deposit c w none).err.isSome = true
      ∧ (Deposit c w none).ensureInvoked = false
      ∧ (Deposit c w none).attempts = 0
      ∧ (Deposit c w none).netCalls = 0
      ∧ (Deposit c w none).client = c)
    ∧ ((Withdraw c w none).err.isSome = true
      ∧ (Withdraw c w none).ensureInvoked = false
      ∧ (Withdraw c w none).attempts = 0
      ∧ (Withdraw c w none).netCalls = 0
      ∧ (Withdraw c w none).client = c)
    ∧ ((GetTransaction c w "").err.isSome = true
      ∧ (GetTransaction c w "").ensureInvoked = false
      ∧ (GetTransaction c w "").attempts = 0
      ∧ (GetTransaction c w "").netCalls = 0
      ∧ (GetTransaction c w "").client = c) := by
  refine ⟨⟨rfl, rfl, rfl, rfl, rfl⟩, ⟨rfl, rfl, rfl, rfl, rfl⟩, ?_⟩
  simp [GetTransaction]

/-- C3: for every configured retry count and every request whose every
dispatch answers with a status ≥ 500, `doRequest` performs exactly
`retryCount + 1` dispatch attempts, returns the classified error of the
last response, and sleeps between consecutive attempts with strictly
doubling backoff starting at the initial 100 ms. -/
theorem C3_5xx_retry_policy (c : Client) (w : ReqWorld)
    (s : Nat → Nat) (t : Nat → String) (ed : Nat → Option ErrorResponse)
    (su : Nat → SuccessDecode) (hasResult : Bool) (sink0 : SinkVal)
    (hens : (ensureToken c w.ensure).err = none)
    (hd : ∀ n, w.dispatch n = .resp (s n) (t n) (ed n) (su n))
    (h5 : ∀ n, 500 ≤ s n) (hc : ∀ n, w.canceled n = false) :
    (doRequest c w hasResult sink0).attempts = c.retryCount + 1
      ∧ (doRequest c w hasResult sink0).err
          = some (parseErrorResponse (s c.retryCount) (t c.retryCount)
              (ed c.retryCount))
      ∧ (doRequest c w hasResult sink0).sleeps
          = (List.range c.retryCount).map
              (fun i => defaultRetryBackoff * 2 ^ i) := by
  simp only [doRequest]
  rw [hens]
  simp only [Nat.max_zero]
  cases hrc : c.retryCount with
  | zero =>
      rw [doLoop_first_5xx_exhausted w hasResult sink0 _ _ _ _ _ _ _ _
        (hd 0) (h5 0)]
      simp
  | succ k =>
      rw [doLoop_first_5xx w hasResult sink0 _ k defaultRetryBackoff _ _
        _ _ _ _ (hd 0) (h5 0)]
      rw [doLoop_all_5xx w hasResult sink0 _ s t ed su hd h5 hc k 1
        defaultRetryBackoff _ [] one_ne_zero]
      refine ⟨by simp; omega, ?_, ?_⟩
      · have : 1 + k = k + 1 := by omega
        simp [this]
      · simp [geomSleeps_eq_map]

/-- Witness for C3 at a concrete all-500 world with the default retry
count of 3: four attempts and sleeps 100, 200, 400 ms. -/
theorem C3_witness :
    (doRequest client0 w500 true "").attempts = 4
      ∧ (doRequest client0 w500 true "").err
          = some (parseErrorResponse 500 "500 Internal Server Error" none)
      ∧ (doRequest client0 w500 true "").sleeps = [100, 200, 400] := by
  have h := C3_5xx_retry_policy client0 w500 (fun _ => 500)
    (fun _ => "500 Internal Server Error") (fun _ => none)
    (fun _ => .envFail) true "" (by rfl) (fun n => rfl)
    (fun n => by norm_num) (fun n => rfl)
  refine ⟨h.1, h.2.1, ?_⟩
  rw [h.2.2]
  rfl

/-- C4: a first dispatch answering a status in `[400,499]` makes
`doRequest` perform exactly one dispatch attempt and return the
classified error immediately, with no sleep and no retry, for every
configured retry count. -/
theorem C4_client_error_no_retry (c : Client) (w : ReqWorld)
    (status : Nat) (text : String) (errDec : Option ErrorResponse)
    (succ : SuccessDecode) (hasResult : Bool) (sink0 : SinkVal)
    (hens : (ensureToken c w.ensure).err = none)
    (hd : w.dispatch 0 = .resp status text errDec succ)
    (h1 : 400 ≤ status) (h2 : status ≤ 499) :
    (doRequest c w hasResult sink0).attempts = 1
      ∧ (doRequest c w hasResult sink0).err
          = some (parseErrorResponse status text errDec)
      ∧ (doRequest c w hasResult sink0).sleeps = [] := by
  simp only [doRequest]
  rw [hens]
  simp only [Nat.max_zero]
  rw [doLoop_first_4xx w hasResult sink0 _ c.retryCount
    defaultRetryBackoff none [] status text errDec succ hd
    (by omega) (Or.inr h1)]
  exact ⟨rfl, rfl, rfl⟩

/-- Witness for C4 at a concrete 404 world with retry count 3. -/
theorem C4_witness :
    (doRequest client0 w404 true "").attempts = 1
      ∧ (doRequest client0 w404 true "").err
          = some (parseErrorResponse 404 "404 Not Found"
              (some ⟨"not found", []⟩))
      ∧ (doRequest client0 w404 true "").sleeps = [] :=
  C4_client_error_no_retry client0 w404 404 "404 Not Found"
    (some ⟨"not found", []⟩) .envFail true "" (by rfl) rfl
    (by norm_num) (by norm_num)

/-- C8: cancelling the caller's context while `doRequest` waits out the
retry backoff before attempt `k` returns the context's cancellation
error with no further dispatch (exactly `k` dispatches were made), and
this outcome is never the value the Error Classifier recorded for a
retried response. -/
theorem C8_cancellation_during_backoff (c : Client) (w : ReqWorld)
    (k : Nat) (s : Nat → Nat) (t : Nat → String)
    (ed : Nat → Option ErrorResponse) (su : Nat → SuccessDecode)
    (hasResult : Bool) (sink0 : SinkVal)
    (hens : (ensureToken c w.ensure).err = none)
    (hd : ∀ n, w.dispatch n = .resp (s n) (t n) (ed n) (su n))
    (h5 : ∀ n, 500 ≤ s n)
    (hk1 : 1 ≤ k) (hk2 : k ≤ c.retryCount)
    (hcpre : ∀ i, i < k → w.canceled i = false)
    (hck : w.canceled k = true) :
    (doRequest c w hasResult sink0).err = some .ctxCanceled
      ∧ (doRequest c w hasResult sink0).attempts = k
      ∧ ∀ n text2 d, (doRequest c w hasResult sink0).err
          ≠ some (parseErrorResponse n text2 d) := by
  simp only [doRequest]
  rw [hens]
  simp only [Nat.max_zero]
  obtain ⟨r, hr⟩ : ∃ r, c.retryCount = r + 1 :=
    ⟨c.retryCount - 1, by omega⟩
  rw [hr]
  rw [doLoop_first_5xx w hasResult sink0 _ r defaultRetryBackoff _ _
    _ _ _ _ (hd 0) (h5 0)]
  have h := doLoop_5xx_then_cancel w hasResult sink0
    (ensureToken c w.ensure).client s t ed su hd h5 (k - 1) r 1
    defaultRetryBackoff
    (some (parseErrorResponse (s 0) (t 0) (ed 0))) [] one_ne_zero
    (by omega)
    (fun j hj => hcpre (1 + j) (by omega))
    (by
      have : 1 + (k - 1) = k := by omega
      rw [this]; exact hck)
  refine ⟨h.1, by rw [h.2]; omega, ?_⟩
  intro n text2 d hne
  rw [h.1] at hne
  exact parseErrorResponse_ne_ctxCanceled n text2 d
    (Option.some_injective _ hne).symm

/-- Witness for C8 at a concrete world cancelled before attempt 2. -/
theorem C8_witness :
    (doRequest client0 wCancel true "").err = some .ctxCanceled
      ∧ (doRequest client0 wCancel true "").attempts = 2 := by
  have h := C8_cancellation_during_backoff client0 wCancel 2
    (fun _ => 500) (fun _ => "500 Internal Server Error") (fun _ => none)
    (fun _ => .envFail) true "" (by rfl) (fun n => rfl)
    (fun n => by norm_num) (by norm_num) (by decide)
    (fun i hi => by
      interval_cases i <;> rfl)
    (by rfl)
  exact ⟨h.1, h.2.1⟩

/-- C9: a 2xx response whose decoded Success Envelope carries a nil
`data` field, with a non-nil result sink, makes `doRequest` return
success after one attempt and leave the result sink at its prior
value. -/
theorem C9_null_data_leaves_sink (c : Client) (w : ReqWorld)
    (status : Nat) (text : String) (ed : Option ErrorResponse)
    (sink0 : SinkVal)
    (hens : (ensureToken c w.ensure).err = none)
    (hd : w.dispatch 0 = .resp status text ed .dataNull)
    (h2a : 200 ≤ status) (h2b : status ≤ 299) :
    (doRequest c w true sink0).err = none
      ∧ (doRequest c w true sink0).sink = sink0
      ∧ (doRequest c w true sink0).attempts = 1 := by
  simp only [doRequest]
  rw [hens]
  simp only [Nat.max_zero]
  rw [doLoop_first_dataNull w sink0 _ c.retryCount defaultRetryBackoff
    none [] status text ed hd (by omega) (by omega)]
  exact ⟨rfl, rfl, rfl⟩

/-- Witness for C9 at a concrete 200-with-null-data world. -/
theorem C9_witness :
    (doRequest client0 wNull true "zero").err = none
      ∧ (doRequest client0 wNull true "zero").sink = "zero"
      ∧ (doRequest client0 wNull true "zero").attempts = 1 :=
  C9_null_data_leaves_sink client0 wNull 200 "200 OK" none "zero"
    (by rfl) rfl (by norm_num) (by norm_num)

/-- C6 counterexample: an `authenticate` exchange failing with a 500
response whose envelope decodes is returned as the plain `APIError` the
Error Classifier produced — not wrapped in an authentication-class
error — so not every Credential Manager failure leaves it as an
`AuthError`. -/
theorem C6_counterexample :
    (authenticate client0 0
        (.resp 500 "500 Internal Server Error"
          ⟨some ⟨"boom", []⟩, none⟩)).err
      = some (.apiError 500 "boom" [])
    ∧ SdkError.isAuthClass (.apiError 500 "boom" []) = false :=
  ⟨rfl, rfl⟩

/-- C6 (amended): transport failures of `authenticate` and
`refreshAccessToken`, and a refresh attempted with no refresh token
held, are wrapped as authentication-class errors; a non-2xx response is
returned as the Error Classifier's result (authentication-class only
when that classification says so); an envelope-decode failure is
returned as a plain decode error. -/
theorem C6_amended_failure_wrapping (c : Client) (now : Time)
    (status : Nat) (text : String) (body : AuthBody) :
    ((authenticate c now .transportFail).err.any SdkError.isAuthClass
        = true)
    ∧ (c.state.refreshToken ≠ "" →
        (refreshAccessToken c now .transportFail).err.any
          SdkError.isAuthClass = true)
    ∧ (c.state.refreshToken = "" → ∀ h : HTTPResult AuthBody,
        (refreshAccessToken c now h).err.any SdkError.isAuthClass = true)
    ∧ (status < 200 ∨ 400 ≤ status →
        (authenticate c now (.resp status text body)).err
          = some (parseErrorResponse status text body.errDecoded))
    ∧ (status < 200 ∨ 400 ≤ status → c.state.refreshToken ≠ "" →
        (refreshAccessToken c now (.resp status text body)).err
          = some (parseErrorResponse status text body.errDecoded))
    ∧ (¬ (status < 200 ∨ 400 ≤ status) → body.envDecoded = none →
        (authenticate c now (.resp status text body)).err
          = some (.decodeErr "failed to decode response")) := by
  refine ⟨rfl, ?_, ?_, ?_, ?_, ?_⟩
  · intro hrt
    simp [refreshAccessToken, hrt, SdkError.isAuthClass]
  · intro he h
    simp [refreshAccessToken, he, SdkError.isAuthClass]
  · intro hs
    simp [authenticate, hs]
  · intro hs hrt
    simp [refreshAccessToken, hrt, hs]
  · intro hs hb
    simp [authenticate, hs, hb]

/-- Witness for the amended C6 at concrete inputs: a transport failure
is auth-class, a 500 response is the classifier's result. -/
theorem C6_amended_witness :
    (authenticate client0 0 .transportFail).err.any SdkError.isAuthClass
        = true
    ∧ (authenticate client0 0 (.resp 500 "500 Internal Server Error"
          ⟨some ⟨"boom", []⟩, none⟩)).err
      = some (parseErrorResponse 500 "500 Internal Server Error"
          (some ⟨"boom", []⟩)) := by
  have h := C6_amended_failure_wrapping client0 0 500
    "500 Internal Server Error" ⟨some ⟨"boom", []⟩, none⟩
  exact ⟨h.1, h.2.2.2.1 (by norm_num)⟩

/-- C7 counterexample: a successful `authenticate` exchange at time 1000
with server-declared `expires_in = 0` stores `expires_at = 1000`, which
is neither the zero value nor strictly later than the moment it was
set — so the invariant does not hold for every server-declared
`expires_in`. -/
theorem C7_counterexample :
    (authenticate client0 1000
        (.resp 200 "200 OK" ⟨none, some (some ⟨"t", "r", 0⟩)⟩)).err = none
    ∧ (authenticate client0 1000
        (.resp 200 "200 OK"
          ⟨none, some (some ⟨"t", "r", 0⟩)⟩)).client.state.tokenExpiresAt
      = 1000
    ∧ isZeroTime 1000 = false
    ∧ ¬ ((1000 : Time) < (1000 : Time)) := by
  refine ⟨rfl, by decide, by decide, by decide⟩

/-- C7 (amended): after every successful `authenticate` or
`refreshAccessToken` exchange the credential written by `setTokens` has
`expires_at = issue time + expires_in` seconds, mirrored into the token
cache, and it is strictly in the future whenever the server-declared
`expires_in` is positive. -/
theorem C7_amended_expiry_invariant (c : Client) (now : Time)
    (status : Nat) (text : String) (ed : Option ErrorResponse)
    (auth : AppAuthResponse) (hst : ¬ (status < 200 ∨ 400 ≤ status)) :
    ((authenticate c now (.resp status text ⟨ed, some (some auth)⟩)).err
        = none
      ∧ (authenticate c now
          (.resp status text ⟨ed, some (some auth)⟩)).client.state.tokenExpiresAt
        = now + auth.expiresIn * 1000
      ∧ (authenticate c now
          (.resp status text ⟨ed, some (some auth)⟩)).client.cache
        = ⟨auth.accessToken, auth.refreshToken, now + auth.expiresIn * 1000⟩
      ∧ (0 < auth.expiresIn →
          now < (authenticate c now
            (.resp status text ⟨ed, some (some auth)⟩)).client.state.tokenExpiresAt))
    ∧ (c.state.refreshToken ≠ "" →
        (refreshAccessToken c now
            (.resp status text ⟨ed, some (some auth)⟩)).err = none
        ∧ (refreshAccessToken c now
            (.resp status text ⟨ed, some (some auth)⟩)).client.state.tokenExpiresAt
          = now + auth.expiresIn * 1000
        ∧ (0 < auth.expiresIn →
            now < (refreshAccessToken c now
              (.resp status text
                ⟨ed, some (some auth)⟩)).client.state.tokenExpiresAt)) := by
  constructor
  · refine ⟨?_, ?_, ?_, ?_⟩ <;>
      simp [authenticate, hst, setTokens]
  · intro hrt
    refine ⟨?_, ?_, ?_⟩ <;>
      simp [refreshAccessToken, hrt, hst, setTokens]

/-- Witness for the amended C7: a 3600-second lifetime granted at time 0
stores expiry 3600000 ms, strictly in the future. -/
theorem C7_amended_witness :
    (authenticate client0 0
        (.resp 200 "200 OK" ⟨none, some (some ⟨"t", "r", 3600⟩)⟩)).err
        = none
    ∧ (authenticate client0 0
        (.resp 200 "200 OK"
          ⟨none, some (some ⟨"t", "r", 3600⟩)⟩)).client.state.tokenExpiresAt
      = 3600000
    ∧ (0 : Time) < (authenticate client0 0
        (.resp 200 "200 OK"
          ⟨none, some (some ⟨"t", "r", 3600⟩)⟩)).client.state.tokenExpiresAt := by
  have h := C7_amended_expiry_invariant client0 0 200 "200 OK" none
    ⟨"t", "r", 3600⟩ (by norm_num)
  obtain ⟨h1, h2, h3, h4⟩ := h.1
  refine ⟨h1, by rw [h2]; norm_num, h4 (by norm_num)⟩

end Pasis
